import Mathlib

/-!
Shallow embedding of the WhatsApp football bot (`src/app.py`).

The store is the JSON blob `players.json`: an admin list, a map from phone
number to player record, and a session with an active flag and a participant
list.  The webhook handler `whatsapp_bot` is modelled as a pure function from
the loaded store and the incoming message fields to the mutated store and the
optional reply body.  The in-place `random.shuffle` is abstracted as a
`shuffle` parameter; theorems that depend on it assume it produces a
permutation of its input, which is exactly what `random.shuffle` guarantees.
-/

/-- A player record, as in `data["players"][phone] = {"name": ...}`. -/
structure Player where
  name : String
deriving Repr, DecidableEq

/-- The `data["session"]` object. -/
structure Session where
  active : Bool
  participants : List String
deriving Repr, DecidableEq

/-- The whole persisted data blob (`init_data` gives the default).
`players` is an insertion-ordered association list, like a Python dict. -/
structure Store where
  admins : List String
  players : List (String × Player)
  session : Session
deriving Repr, DecidableEq

/-- `init_data()` from the source. -/
def init_data : Store :=
  { admins := [], players := [], session := { active := false, participants := [] } }

/-- `PLAYERS_PER_TEAM = 6`. -/
def PLAYERS_PER_TEAM : Nat := 6

/-- `is_admin(phone, data)`: membership in the admin list. -/
def is_admin (phone : String) (data : Store) : Bool :=
  phone ∈ data.admins

/-- Fuel-based slicing loop of `create_teams`:
`for i in range(0, num_players, PLAYERS_PER_TEAM): teams.append(shuffled[i:i+PLAYERS_PER_TEAM])`.
Each iteration takes the next `c` elements.  The fuel (instantiated with the
list length, which always suffices) only makes the recursion structural. -/
def chunkAux (c : Nat) : Nat → List α → List (List α)
  | _, [] => []
  | 0, _ :: _ => []
  | fuel + 1, x :: xs => (x :: xs.take (c - 1)) :: chunkAux c fuel (xs.drop (c - 1))

/-- Slice a list into consecutive chunks of `c` elements (last chunk shorter). -/
def chunkList (c : Nat) (l : List α) : List (List α) :=
  chunkAux c l.length l

/-- `create_teams(players)`: empty input gives no teams, otherwise shuffle and
slice into chunks of `PLAYERS_PER_TEAM`.  `shuffle` stands for the in-place
`random.shuffle` on the copied list. -/
def create_teams (shuffle : List Player → List Player) (players : List Player) :
    List (List Player) :=
  if players.length = 0 then []
  else chunkList PLAYERS_PER_TEAM (shuffle players)

-- Basic properties of the slicing loop.

theorem chunkAux_nil (c f : Nat) : chunkAux c f ([] : List α) = [] := by
  cases f <;> rfl

theorem chunkAux_eq_nil_iff (c f : Nat) (l : List α) (hf : l.length ≤ f) :
    chunkAux c f l = [] ↔ l = [] := by
  cases l with
  | nil => simp [chunkAux_nil]
  | cons x xs =>
    cases f with
    | zero => simp at hf
    | succ f => simp [chunkAux]

/-- The fuel does not matter as long as it is at least the list length. -/
theorem chunkAux_fuel (c : Nat) (f g : Nat) (l : List α)
    (hf : l.length ≤ f) (hg : l.length ≤ g) :
    chunkAux c f l = chunkAux c g l := by
  induction f generalizing g l with
  | zero =>
    have : l = [] := by
      cases l with
      | nil => rfl
      | cons x xs => simp at hf
    subst this
    simp [chunkAux_nil]
  | succ f ih =>
    cases l with
    | nil => simp [chunkAux_nil]
    | cons x xs =>
      cases g with
      | zero => simp at hg
      | succ g =>
        simp only [chunkAux]
        have hlen : (xs.drop (c - 1)).length ≤ xs.length := by
          simp [List.length_drop]
        have hf' : (xs.drop (c - 1)).length ≤ f := by
          simp only [List.length_cons] at hf; omega
        have hg' : (xs.drop (c - 1)).length ≤ g := by
          simp only [List.length_cons] at hg; omega
        rw [ih g (xs.drop (c - 1)) hf' hg']

theorem chunkList_nil (c : Nat) : chunkList c ([] : List α) = [] := rfl

theorem chunkList_cons (c : Nat) (x : α) (xs : List α) :
    chunkList c (x :: xs) = (x :: xs.take (c - 1)) :: chunkList c (xs.drop (c - 1)) := by
  show chunkAux c (xs.length + 1) (x :: xs) = _
  simp only [chunkAux]
  rw [chunkAux_fuel c xs.length (xs.drop (c - 1)).length (xs.drop (c - 1))
    (by simp [List.length_drop]) le_rfl]
  rfl

/-- Concatenating the chunks gives back the input: the loop neither loses nor
duplicates elements. -/
theorem chunkAux_flatten (c f : Nat) (l : List α) (hf : l.length ≤ f) :
    (chunkAux c f l).flatten = l := by
  induction f generalizing l with
  | zero =>
    cases l with
    | nil => simp [chunkAux_nil]
    | cons x xs => simp at hf
  | succ f ih =>
    cases l with
    | nil => simp [chunkAux_nil]
    | cons x xs =>
      have hf' : (xs.drop (c - 1)).length ≤ f := by
        simp only [List.length_cons] at hf
        simp only [List.length_drop]
        omega
      simp only [chunkAux, List.flatten_cons]
      rw [ih (xs.drop (c - 1)) hf']
      simp [List.cons_append, List.take_append_drop]

theorem chunkList_flatten (c : Nat) (l : List α) : (chunkList c l).flatten = l :=
  chunkAux_flatten c l.length l le_rfl

/-- The loop runs `ceil(n / c)` times, so there are `ceil(n / c)` chunks. -/
theorem chunkAux_length (c f : Nat) (hc : 0 < c) (l : List α) (hf : l.length ≤ f) :
    (chunkAux c f l).length = (l.length + c - 1) / c := by
  induction f generalizing l with
  | zero =>
    cases l with
    | nil => simp [chunkAux_nil, Nat.div_eq_of_lt (by omega : c - 1 < c)]
    | cons x xs => simp at hf
  | succ f ih =>
    cases l with
    | nil => simp [chunkAux_nil, Nat.div_eq_of_lt (by omega : c - 1 < c)]
    | cons x xs =>
      have hf' : (xs.drop (c - 1)).length ≤ f := by
        simp only [List.length_cons] at hf
        simp only [List.length_drop]
        omega
      simp only [chunkAux, List.length_cons]
      rw [ih (xs.drop (c - 1)) hf']
      simp only [List.length_drop]
      have h1 : xs.length + 1 + c - 1 = xs.length + c := by omega
      rw [h1, Nat.add_div_right _ hc]
      rcases le_or_lt (c - 1) xs.length with h | h
      · have h2 : xs.length - (c - 1) + c - 1 = xs.length := by omega
        rw [h2]
      · have h2 : xs.length - (c - 1) = 0 := by omega
        rw [h2]
        rw [Nat.div_eq_of_lt (by omega), Nat.div_eq_of_lt (by omega)]

theorem chunkList_length (c : Nat) (hc : 0 < c) (l : List α) :
    (chunkList c l).length = (l.length + c - 1) / c :=
  chunkAux_length c l.length hc l le_rfl

/-- Every chunk except the last one is full: it has exactly `c` elements. -/
theorem chunkAux_dropLast (c f : Nat) (hc : 0 < c) (l : List α) (hf : l.length ≤ f) :
    ∀ t ∈ (chunkAux c f l).dropLast, t.length = c := by
  induction f generalizing l with
  | zero =>
    cases l with
    | nil => simp [chunkAux_nil]
    | cons x xs => simp at hf
  | succ f ih =>
    cases l with
    | nil => simp [chunkAux_nil]
    | cons x xs =>
      simp only [chunkAux]
      intro t ht
      have hf' : (xs.drop (c - 1)).length ≤ f := by
        simp only [List.length_cons] at hf
        simp [List.length_drop]; omega
      cases hrest : chunkAux c f (xs.drop (c - 1)) with
      | nil => rw [hrest] at ht; simp at ht
      | cons r rs =>
        rw [hrest] at ht
        rw [List.dropLast_cons_of_ne_nil (by simp)] at ht
        rcases List.mem_cons.mp ht with h | h
        · subst h
          have hdrop : xs.drop (c - 1) ≠ [] := by
            intro hnil
            rw [hnil, chunkAux_nil] at hrest
            exact List.cons_ne_nil r rs hrest.symm
          have hxs : c - 1 ≤ xs.length := by
            by_contra hlt
            exact hdrop (List.drop_eq_nil_of_le (by omega))
          simp [List.length_take, Nat.min_eq_left hxs]
          omega
        · exact ih (xs.drop (c - 1)) hf' t (hrest ▸ h)

theorem chunkList_dropLast (c : Nat) (hc : 0 < c) (l : List α) :
    ∀ t ∈ (chunkList c l).dropLast, t.length = c :=
  chunkAux_dropLast c l.length hc l le_rfl

/-- The last chunk has between 1 and `c` elements (input non-empty). -/
theorem chunkAux_getLast (c f : Nat) (hc : 0 < c) (l : List α) (hl : l ≠ [])
    (hf : l.length ≤ f) :
    1 ≤ ((chunkAux c f l).getLastD []).length ∧
      ((chunkAux c f l).getLastD []).length ≤ c := by
  induction f generalizing l with
  | zero =>
    cases l with
    | nil => exact absurd rfl hl
    | cons x xs => simp at hf
  | succ f ih =>
    cases l with
    | nil => exact absurd rfl hl
    | cons x xs =>
      simp only [chunkAux]
      have hf' : (xs.drop (c - 1)).length ≤ f := by
        simp only [List.length_cons] at hf
        simp [List.length_drop]; omega
      cases hrest2 : chunkAux c f (xs.drop (c - 1)) with
      | nil =>
        rw [List.getLastD_cons, List.getLastD_nil]
        constructor
        · simp
        · simp only [List.length_cons, List.length_take]
          omega
      | cons r rs =>
        have hdrop : xs.drop (c - 1) ≠ [] := by
          intro hnil
          rw [hnil, chunkAux_nil] at hrest2
          exact List.cons_ne_nil r rs hrest2.symm
        have hrec := ih (xs.drop (c - 1)) hdrop hf'
        rw [hrest2, List.getLastD_cons] at hrec
        rw [List.getLastD_cons, List.getLastD_cons]
        exact hrec

theorem chunkList_getLast (c : Nat) (hc : 0 < c) (l : List α) (hl : l ≠ []) :
    1 ≤ ((chunkList c l).getLastD []).length ∧
      ((chunkList c l).getLastD []).length ≤ c :=
  chunkAux_getLast c l.length hc l hl le_rfl

/-- Length of the last chunk: what is left after the full chunks. -/
theorem chunkList_getLast_length (c : Nat) (hc : 0 < c) (l : List α) (hl : l ≠ []) :
    ((chunkList c l).getLastD []).length
      = l.length - c * ((chunkList c l).length - 1) := by
  have hL : chunkList c l ≠ [] := by
    intro h
    exact hl ((chunkAux_eq_nil_iff c l.length l le_rfl).mp h)
  have hflat := chunkList_flatten c l
  have hsum : ((chunkList c l).map List.length).sum = l.length := by
    rw [← List.length_flatten, hflat]
  have hmap : (chunkList c l).map List.length
      = ((chunkList c l).dropLast.map List.length)
        ++ [((chunkList c l).getLast hL).length] := by
    conv_lhs => rw [← List.dropLast_append_getLast hL]
    simp
  have hconst : ∀ x ∈ (chunkList c l).dropLast.map List.length, x = c := by
    intro x hx
    obtain ⟨t, ht, rfl⟩ := List.mem_map.mp hx
    exact chunkList_dropLast c hc l t ht
  have hS : ((chunkList c l).dropLast.map List.length).sum
      = ((chunkList c l).length - 1) * c := by
    rw [List.sum_eq_card_nsmul _ c hconst]
    simp [List.length_dropLast, smul_eq_mul]
  have htotal : l.length
      = ((chunkList c l).length - 1) * c + ((chunkList c l).getLast hL).length := by
    rw [← hsum, hmap, List.sum_append, hS]
    simp
  have hgl : (chunkList c l).getLastD [] = (chunkList c l).getLast hL := by
    rw [List.getLastD_eq_getLast?, List.getLast?_eq_getLast _ hL]
    rfl
  rw [hgl, Nat.mul_comm c ((chunkList c l).length - 1)]
  omega

/-- **C1**: `create_teams` on a list of `n` players (capacity 6) yields
`ceil(n/6)` teams whose concatenation is a permutation of the input; every team
but the last is full (6 players), the last team holds the remainder
`n - 6*(ceil(n/6)-1)`, which lies in `[1, 6]` when `n > 0`; the empty input
yields no teams.  `shuffle` is the in-place `random.shuffle`, assumed only to
permute its input. -/
theorem C1_create_teams_partition (shuffle : List Player → List Player)
    (players : List Player) (hperm : (shuffle players).Perm players) :
    (create_teams shuffle players).length
        = (players.length + PLAYERS_PER_TEAM - 1) / PLAYERS_PER_TEAM ∧
      (create_teams shuffle players).flatten.Perm players ∧
      (∀ t ∈ (create_teams shuffle players).dropLast, t.length = PLAYERS_PER_TEAM) ∧
      (players ≠ [] →
        ((create_teams shuffle players).getLastD []).length
            = players.length
              - PLAYERS_PER_TEAM * ((create_teams shuffle players).length - 1) ∧
          1 ≤ ((create_teams shuffle players).getLastD []).length ∧
          ((create_teams shuffle players).getLastD []).length ≤ PLAYERS_PER_TEAM) ∧
      (players = [] → create_teams shuffle players = []) := by
  have hc : 0 < PLAYERS_PER_TEAM := by decide
  by_cases hp : players.length = 0
  · have hnil : players = [] := List.length_eq_zero.mp hp
    subst hnil
    refine ⟨by simp [create_teams]; decide, by simp [create_teams], ?_, ?_, fun _ => by
      simp [create_teams]⟩
    · intro t ht
      simp [create_teams] at ht
    · intro h
      exact absurd rfl h
  · have hlen : (shuffle players).length = players.length := hperm.length_eq
    have hct : create_teams shuffle players
        = chunkList PLAYERS_PER_TEAM (shuffle players) := by
      simp [create_teams, hp]
    have hsne : shuffle players ≠ [] := by
      intro h
      rw [h] at hlen
      exact hp hlen.symm
    refine ⟨?_, ?_, ?_, fun _ => ?_, fun h => absurd (by rw [h]; rfl : players.length = 0) hp⟩
    · rw [hct, chunkList_length _ hc, hlen]
    · rw [hct, chunkList_flatten]
      exact hperm
    · rw [hct]
      exact chunkList_dropLast _ hc _
    · refine ⟨?_, ?_⟩
      · rw [hct, chunkList_getLast_length _ hc _ hsne, hlen]
      · rw [hct]
        exact chunkList_getLast _ hc _ hsne

/-- A concrete 8-player roster used to instantiate the theorems. -/
def samplePlayers : List Player :=
  [⟨"Ada"⟩, ⟨"Ben"⟩, ⟨"Caz"⟩, ⟨"Dan"⟩, ⟨"Eve"⟩, ⟨"Fay"⟩, ⟨"Gus"⟩, ⟨"Hal"⟩]

/-- Witness for C1 at a concrete input: 8 players, `List.reverse` as the
shuffle, giving teams of sizes 6 and 2. -/
theorem C1_create_teams_partition_witness :
    (List.reverse samplePlayers).Perm samplePlayers ∧
      ((create_teams List.reverse samplePlayers).length
          = (samplePlayers.length + PLAYERS_PER_TEAM - 1) / PLAYERS_PER_TEAM ∧
        (create_teams List.reverse samplePlayers).flatten.Perm samplePlayers ∧
        (∀ t ∈ (create_teams List.reverse samplePlayers).dropLast,
          t.length = PLAYERS_PER_TEAM) ∧
        (samplePlayers ≠ [] →
          ((create_teams List.reverse samplePlayers).getLastD []).length
              = samplePlayers.length
                - PLAYERS_PER_TEAM
                  * ((create_teams List.reverse samplePlayers).length - 1) ∧
            1 ≤ ((create_teams List.reverse samplePlayers).getLastD []).length ∧
            ((create_teams List.reverse samplePlayers).getLastD []).length
              ≤ PLAYERS_PER_TEAM) ∧
        (samplePlayers = [] → create_teams List.reverse samplePlayers = [])) :=
  ⟨by decide, C1_create_teams_partition List.reverse samplePlayers (by decide)⟩

/-- The emoji cycle of `format_teams`. -/
def team_emojis : List String :=
  ["🔴", "🔵", "🟢", "🟡", "🟣", "🟠", "⚫", "⚪"]

/-- The colour-name cycle of `format_teams`. -/
def team_names : List String :=
  ["Red", "Blue", "Green", "Yellow", "Purple", "Orange", "Black", "White"]

/-- One iteration of the `format_teams` loop: empty teams are skipped, the
label is taken from the two cycles by team index modulo 8. -/
def format_team (i : Nat) (team : List Player) : String :=
  if team.isEmpty then ""
  else
    (team_emojis.getD (i % team_emojis.length) "") ++ " *"
      ++ (team_names.getD (i % team_names.length) "") ++ " Team* ("
      ++ toString team.length ++ " players)\n"
      ++ String.join (team.map (fun p => "  • " ++ p.name ++ "\n")) ++ "\n"

/-- `format_teams(teams)`: header plus one block per (non-empty) team. -/
def format_teams (teams : List (List Player)) : String :=
  "⚽ *THIS WEEK\x27S TEAMS* ⚽\n" ++ "".pushn '=' 30 ++ "\n\n"
    ++ String.join (teams.enum.map (fun it => format_team it.1 it.2))

/-- `data["players"].get(phone, {"name": "Unknown"})`: look a participant up in
the players map, falling back to the name `"Unknown"`. -/
def player_info (players : List (String × Player)) (phone : String) : Player :=
  (players.lookup phone).getD { name := "Unknown" }

/-- `str.strip()` on the message body: drop leading and trailing whitespace.
(Executable model of the Python/Lean string primitive, recursing on the
character list so that proofs can evaluate it.) -/
def strip (s : String) : String :=
  ⟨((s.data.dropWhile Char.isWhitespace).reverse.dropWhile Char.isWhitespace).reverse⟩

/-- `str.lower()`: lower-case every character. -/
def lower (s : String) : String :=
  ⟨s.data.map Char.toLower⟩

/-- `str.startswith(p)`. -/
def startswith (s p : String) : Bool :=
  p.data.isPrefixOf s.data

/-- The `/addadmin` branch of the handler. -/
def handle_addadmin (data : Store) (sender : String) : Store × Option String :=
  if !(is_admin sender data) && data.admins.length == 0 then
    ({ data with admins := data.admins ++ [sender] },
      some "👑 You are now an admin!")
  else if is_admin sender data then
    (data, some ("✅ You\x27re already an admin!\n\nAdmin commands:\n"
      ++ "/start - Start selection\n"
      ++ "/end - Create random teams\n"
      ++ "/status - View current status\n"
      ++ "/reset - Reset session"))
  else
    (data, some "❌ Only existing admins can add new admins")

/-- The `/start` branch of the handler. -/
def handle_start (data : Store) (sender : String) : Store × Option String :=
  if !(is_admin sender data) then
    (data, some "❌ Only admins can start selection")
  else
    ({ data with session := { active := true, participants := [] } },
      some ("🎮 *TEAM SELECTION STARTED!*\n\n"
        ++ "Reply with:\n"
        ++ "• *in* - Join this week\n"
        ++ "• *out* - Skip this week\n\n"
        ++ "Admin will announce teams later!"))

/-- The `/end` branch of the handler. -/
def handle_end (shuffle : List Player → List Player) (data : Store)
    (sender : String) : Store × Option String :=
  if !(is_admin sender data) then
    (data, some "❌ Only admins can end selection")
  else if !data.session.active then
    (data, some "❌ No active session. Use /start first")
  else if data.session.participants.isEmpty then
    (data, some "❌ No players have joined yet!")
  else
    let player_list := data.session.participants.map (player_info data.players)
    let teams := create_teams shuffle player_list
    let result := "🎲 *RANDOM TEAM SELECTION*\n\n" ++ format_teams teams
      ++ "Total Players: " ++ toString player_list.length ++ "\n"
      ++ "Teams Created: " ++ toString teams.length
    ({ data with
        session := { active := false, participants := data.session.participants } },
      some result)

/-- The `/status` branch of the handler. -/
def handle_status (data : Store) (sender : String) : Store × Option String :=
  if !(is_admin sender data) then
    (data, some "❌ Admin only command")
  else
    let status := if data.session.active then "🟢 ACTIVE" else "🔴 INACTIVE"
    let participant_count := data.session.participants.length
    let status_msg := "📊 *SESSION STATUS*\n\n" ++ "Status: " ++ status ++ "\n"
      ++ "Players In: " ++ toString participant_count ++ "\n\n"
      ++ (if participant_count > 0 then
            "Participants:\n" ++ String.join (data.session.participants.map
              (fun phone => "  • " ++ (player_info data.players phone).name ++ "\n"))
          else "")
    (data, some status_msg)

/-- The `/reset` branch of the handler. -/
def handle_reset (data : Store) (sender : String) : Store × Option String :=
  if !(is_admin sender data) then
    (data, some "❌ Only admins can reset")
  else
    ({ data with session := { active := false, participants := [] } },
      some "🔄 Session reset. Use /start to begin new selection")

/-- `if sender not in data["players"]: data["players"][sender] = {"name": profile_name}`:
the lazy player registration inside the `in` branch (the spec's `upsertPlayer`).
A known identity keeps its stored record; only unseen identities are added. -/
def upsertPlayer (players : List (String × Player)) (sender profile_name : String) :
    List (String × Player) :=
  if (players.lookup sender).isNone then
    players ++ [(sender, { name := profile_name })]
  else players

/-- The `in` branch of the handler: register the player on first sight, then
join the roster unless already in it. -/
def handle_in (data : Store) (sender profile_name : String) : Store × Option String :=
  if !data.session.active then
    (data, some "❌ No active selection. Wait for admin to /start")
  else
    let players := upsertPlayer data.players sender profile_name
    if !(data.session.participants.contains sender) then
      let participants := data.session.participants ++ [sender]
      ({ data with
          players := players,
          session := { active := data.session.active, participants := participants } },
        some ("✅ " ++ ((players.lookup sender).getD { name := profile_name }).name
          ++ " is IN!\n" ++ "Current count: "
          ++ toString participants.length ++ " players"))
    else
      ({ data with players := players },
        some ("ℹ️ You\x27re already in, "
          ++ ((players.lookup sender).getD { name := profile_name }).name ++ "!"))

/-- The `out` branch of the handler. -/
def handle_out (data : Store) (sender profile_name : String) : Store × Option String :=
  if !data.session.active then
    (data, some "❌ No active selection")
  else if data.session.participants.contains sender then
    let participants := data.session.participants.erase sender
    let player_name := ((data.players.lookup sender).map Player.name).getD profile_name
    ({ data with
        session := { active := data.session.active, participants := participants } },
      some ("❌ " ++ player_name ++ " is OUT\n" ++ "Current count: "
        ++ toString participants.length ++ " players"))
  else
    (data, some "ℹ️ You weren\x27t in the list")

/-- The `/help` branch of the handler. -/
def handle_help (data : Store) (sender : String) : Store × Option String :=
  let help_text := "⚽ *FOOTBALL BOT COMMANDS*\n\n"
    ++ "*Everyone:*\n"
    ++ "• in - Join this week\n"
    ++ "• out - Skip this week\n\n"
    ++ (if is_admin sender data then
          "*Admin Only:*\n"
          ++ "• /start - Start selection\n"
          ++ "• /end - Create random teams\n"
          ++ "• /status - View status\n"
          ++ "• /reset - Reset session"
        else "")
  (data, some help_text)

/-- The webhook handler `whatsapp_bot()`, as a pure function from the loaded
store and the message fields (`From`, `ProfileName`, `Body`) to the mutated
store and the optional reply body (`none` when no `reply.body` call is made).
Dispatch normalizes the body (`strip` then `lower`) and matches the source
`if`/`elif` chain in order; `shuffle` abstracts `random.shuffle` inside
`create_teams`. -/
def whatsapp_bot (shuffle : List Player → List Player) (data : Store)
    (sender profile_name msg_body : String) : Store × Option String :=
  let msg := lower (strip msg_body)
  if startswith msg "/addadmin" then handle_addadmin data sender
  else if msg == "/start" then handle_start data sender
  else if msg == "/end" then handle_end shuffle data sender
  else if msg == "/status" then handle_status data sender
  else if msg == "/reset" then handle_reset data sender
  else if msg == "in" then handle_in data sender profile_name
  else if msg == "out" then handle_out data sender profile_name
  else if msg == "/help" then handle_help data sender
  else if startswith msg "/" then
    (data, some "❓ Unknown command. Send /help for commands")
  else
    (data, none)

-- Dispatch: with a concrete (already normalized) body, `whatsapp_bot` reduces
-- to the corresponding branch handler.

theorem whatsapp_bot_addadmin (shuffle : List Player → List Player) (data : Store)
    (sender pn : String) :
    whatsapp_bot shuffle data sender pn "/addadmin" = handle_addadmin data sender := rfl

theorem whatsapp_bot_start (shuffle : List Player → List Player) (data : Store)
    (sender pn : String) :
    whatsapp_bot shuffle data sender pn "/start" = handle_start data sender := rfl

theorem whatsapp_bot_end (shuffle : List Player → List Player) (data : Store)
    (sender pn : String) :
    whatsapp_bot shuffle data sender pn "/end" = handle_end shuffle data sender := rfl

theorem whatsapp_bot_status (shuffle : List Player → List Player) (data : Store)
    (sender pn : String) :
    whatsapp_bot shuffle data sender pn "/status" = handle_status data sender := rfl

theorem whatsapp_bot_reset (shuffle : List Player → List Player) (data : Store)
    (sender pn : String) :
    whatsapp_bot shuffle data sender pn "/reset" = handle_reset data sender := rfl

theorem whatsapp_bot_in (shuffle : List Player → List Player) (data : Store)
    (sender pn : String) :
    whatsapp_bot shuffle data sender pn "in" = handle_in data sender pn := rfl

theorem whatsapp_bot_out (shuffle : List Player → List Player) (data : Store)
    (sender pn : String) :
    whatsapp_bot shuffle data sender pn "out" = handle_out data sender pn := rfl

theorem whatsapp_bot_help (shuffle : List Player → List Player) (data : Store)
    (sender pn : String) :
    whatsapp_bot shuffle data sender pn "/help" = handle_help data sender := rfl

-- Behaviour of the `in` branch.

theorem upsertPlayer_lookup_self (players : List (String × Player)) (s pn : String) :
    (upsertPlayer players s pn).lookup s
      = some ((players.lookup s).getD { name := pn }) := by
  unfold upsertPlayer
  cases h : players.lookup s with
  | none => simp [h, List.lookup_append]
  | some p => simp [h]

theorem upsertPlayer_known (players : List (String × Player)) (s pn : String)
    (p : Player) (h : players.lookup s = some p) :
    upsertPlayer players s pn = players := by
  simp [upsertPlayer, h]

theorem handle_in_inactive (data : Store) (s pn : String)
    (hactive : data.session.active = false) :
    handle_in data s pn
      = (data, some "❌ No active selection. Wait for admin to /start") := by
  simp [handle_in, hactive]

theorem handle_in_new (data : Store) (s pn : String)
    (hactive : data.session.active = true)
    (hnotin : s ∉ data.session.participants) :
    handle_in data s pn
      = ({ data with
            players := upsertPlayer data.players s pn,
            session := { active := data.session.active,
                         participants := data.session.participants ++ [s] } },
          some ("✅ "
            ++ (((upsertPlayer data.players s pn).lookup s).getD { name := pn }).name
            ++ " is IN!\n" ++ "Current count: "
            ++ toString (data.session.participants ++ [s]).length ++ " players")) := by
  have hc : data.session.participants.contains s = false := by simpa using hnotin
  simp [handle_in, hactive, hc]
  intro h
  exact absurd h hnotin

theorem handle_in_already (data : Store) (s pn : String)
    (hactive : data.session.active = true)
    (hin : s ∈ data.session.participants) :
    handle_in data s pn
      = ({ data with players := upsertPlayer data.players s pn },
          some ("ℹ️ You\x27re already in, "
            ++ (((upsertPlayer data.players s pn).lookup s).getD { name := pn }).name
            ++ "!")) := by
  have hc : data.session.participants.contains s = true := by simpa using hin
  simp [handle_in, hactive, hc]
  intro h
  exact absurd hin h

/-- **C2**: with the session active and `X` not yet in the roster, the first
`in` from `X` appends `X` and reports the new count; a second `in` replies
"already in" and leaves the whole store unchanged, so `X` occurs exactly once
in the final roster.  The `in` command also preserves roster dedup from any
store. -/
theorem C2_join_twice (shuffle : List Player → List Player) (data : Store)
    (X pn1 pn2 : String)
    (hactive : data.session.active = true)
    (hnotin : X ∉ data.session.participants) :
    (whatsapp_bot shuffle data X pn1 "in").1.session.participants
        = data.session.participants ++ [X] ∧
      (∃ nm, (whatsapp_bot shuffle data X pn1 "in").2
          = some ("✅ " ++ nm ++ " is IN!\n" ++ "Current count: "
            ++ toString (data.session.participants.length + 1) ++ " players")) ∧
      (∃ nm, whatsapp_bot shuffle (whatsapp_bot shuffle data X pn1 "in").1 X pn2 "in"
          = ((whatsapp_bot shuffle data X pn1 "in").1,
              some ("ℹ️ You\x27re already in, " ++ nm ++ "!"))) ∧
      (whatsapp_bot shuffle (whatsapp_bot shuffle data X pn1 "in").1 X pn2
          "in").1.session.participants.count X = 1 ∧
      (∀ d : Store, d.session.participants.Nodup →
        (whatsapp_bot shuffle d X pn1 "in").1.session.participants.Nodup) := by
  have e1 : whatsapp_bot shuffle data X pn1 "in"
      = ({ data with
            players := upsertPlayer data.players X pn1,
            session := { active := data.session.active,
                         participants := data.session.participants ++ [X] } },
          some ("✅ "
            ++ (((upsertPlayer data.players X pn1).lookup X).getD { name := pn1 }).name
            ++ " is IN!\n" ++ "Current count: "
            ++ toString (data.session.participants ++ [X]).length ++ " players")) := by
    rw [whatsapp_bot_in, handle_in_new data X pn1 hactive hnotin]
  have hup : upsertPlayer (upsertPlayer data.players X pn1) X pn2
      = upsertPlayer data.players X pn1 :=
    upsertPlayer_known _ _ _ _ (upsertPlayer_lookup_self data.players X pn1)
  have e2 : whatsapp_bot shuffle (whatsapp_bot shuffle data X pn1 "in").1 X pn2 "in"
      = ((whatsapp_bot shuffle data X pn1 "in").1,
          some ("ℹ️ You\x27re already in, "
            ++ (((upsertPlayer data.players X pn1).lookup X).getD { name := pn2 }).name
            ++ "!")) := by
    rw [e1]
    rw [whatsapp_bot_in]
    rw [handle_in_already _ X pn2 (by simp [hactive]) (by simp)]
    simp [hup]
  refine ⟨by rw [e1],
    ⟨(((upsertPlayer data.players X pn1).lookup X).getD { name := pn1 }).name,
      by rw [e1]; simp⟩,
    ⟨(((upsertPlayer data.players X pn1).lookup X).getD { name := pn2 }).name, e2⟩,
    ?_, ?_⟩
  · rw [e2, e1]
    simp [List.count_append, List.count_eq_zero.mpr hnotin]
  · intro d hd
    rw [whatsapp_bot_in]
    cases hact : d.session.active with
    | false =>
      rw [handle_in_inactive d X pn1 hact]
      exact hd
    | true =>
      by_cases hmem : X ∈ d.session.participants
      · rw [handle_in_already d X pn1 hact hmem]
        exact hd
      · rw [handle_in_new d X pn1 hact hmem]
        simp [List.nodup_append, hd, hmem]

/-- **C3**: `/addadmin` adds the caller exactly when the admin set is empty;
an existing admin gets the "already an admin" info reply with no mutation; any
other caller is denied with no mutation.  Hence bootstrap succeeds exactly
once from an empty admin set. -/
theorem C3_register_first_admin (shuffle : List Player → List Player)
    (data : Store) (sender pn : String) :
    (data.admins = [] →
      whatsapp_bot shuffle data sender pn "/addadmin"
        = ({ data with admins := [sender] }, some "👑 You are now an admin!")) ∧
      (is_admin sender data = true →
        whatsapp_bot shuffle data sender pn "/addadmin"
          = (data, some ("✅ You\x27re already an admin!\n\nAdmin commands:\n"
              ++ "/start - Start selection\n"
              ++ "/end - Create random teams\n"
              ++ "/status - View current status\n"
              ++ "/reset - Reset session"))) ∧
      (data.admins ≠ [] → is_admin sender data = false →
        whatsapp_bot shuffle data sender pn "/addadmin"
          = (data, some "❌ Only existing admins can add new admins")) := by
  rw [whatsapp_bot_addadmin]
  refine ⟨?_, ?_, ?_⟩
  · intro hempty
    have hnadm : is_admin sender data = false := by
      simp [is_admin, hempty]
    simp [handle_addadmin, hnadm, hempty]
  · intro hadm
    simp [handle_addadmin, hadm]
  · intro hne hnadm
    have hlen : data.admins.length ≠ 0 := by
      simpa [List.length_eq_zero] using hne
    simp [handle_addadmin, hnadm, hlen]

/-- **C4**: while the session is inactive, `in` and `out` are denied with the
respective "no active selection" replies and the store is returned untouched. -/
theorem C4_inactive_gating (shuffle : List Player → List Player) (data : Store)
    (sender pn : String) (h : data.session.active = false) :
    whatsapp_bot shuffle data sender pn "in"
        = (data, some "❌ No active selection. Wait for admin to /start") ∧
      whatsapp_bot shuffle data sender pn "out"
        = (data, some "❌ No active selection") := by
  constructor
  · rw [whatsapp_bot_in]
    exact handle_in_inactive data sender pn h
  · rw [whatsapp_bot_out]
    simp [handle_out, h]

/-- **C5**: a successful `/end` (admin, active session, non-empty roster) only
flips the active flag to false: the participants list, the admin list and the
players map are all left exactly as they were. -/
theorem C5_end_frame (shuffle : List Player → List Player) (data : Store)
    (sender pn : String)
    (hadmin : is_admin sender data = true)
    (hactive : data.session.active = true)
    (hne : data.session.participants ≠ []) :
    (whatsapp_bot shuffle data sender pn "/end").1.session.active = false ∧
      (whatsapp_bot shuffle data sender pn "/end").1.session.participants
        = data.session.participants ∧
      (whatsapp_bot shuffle data sender pn "/end").1.admins = data.admins ∧
      (whatsapp_bot shuffle data sender pn "/end").1.players = data.players := by
  rw [whatsapp_bot_end]
  have hemp : data.session.participants.isEmpty = false := by
    simpa [List.isEmpty_iff] using hne
  simp [handle_end, hadmin, hactive, hemp]

/-- **C6**: an identity already present in the players map keeps its stored
record (in particular its name) across any further `in`, whatever profile name
arrives; a new record is appended only for unseen identities. -/
theorem C6_name_frozen (shuffle : List Player → List Player) (data : Store)
    (sender pn : String) (p : Player)
    (hknown : data.players.lookup sender = some p) :
    (whatsapp_bot shuffle data sender pn "in").1.players = data.players ∧
      (whatsapp_bot shuffle data sender pn "in").1.players.lookup sender = some p ∧
      (∀ d : Store, d.players.lookup sender = none → d.session.active = true →
        (whatsapp_bot shuffle d sender pn "in").1.players
          = d.players ++ [(sender, { name := pn })]) := by
  have hsame : upsertPlayer data.players sender pn = data.players :=
    upsertPlayer_known _ _ _ _ hknown
  have hmain : (whatsapp_bot shuffle data sender pn "in").1.players = data.players := by
    rw [whatsapp_bot_in]
    cases hact : data.session.active with
    | false => rw [handle_in_inactive data sender pn hact]
    | true =>
      by_cases hmem : sender ∈ data.session.participants
      · rw [handle_in_already data sender pn hact hmem, hsame]
      · rw [handle_in_new data sender pn hact hmem, hsame]
  refine ⟨hmain, by rw [hmain, hknown], ?_⟩
  intro d hnone hact
  have hadd : upsertPlayer d.players sender pn
      = d.players ++ [(sender, { name := pn })] := by
    simp [upsertPlayer, hnone]
  rw [whatsapp_bot_in]
  by_cases hmem : sender ∈ d.session.participants
  · rw [handle_in_already d sender pn hact hmem, hadd]
  · rw [handle_in_new d sender pn hact hmem, hadd]

/-- **C7**: a non-admin issuing `/start`, `/end`, `/status` or `/reset` gets
the respective denial reply and the store is returned untouched. -/
theorem C7_non_admin_denied (shuffle : List Player → List Player) (data : Store)
    (sender pn : String) (h : is_admin sender data = false) :
    whatsapp_bot shuffle data sender pn "/start"
        = (data, some "❌ Only admins can start selection") ∧
      whatsapp_bot shuffle data sender pn "/end"
        = (data, some "❌ Only admins can end selection") ∧
      whatsapp_bot shuffle data sender pn "/status"
        = (data, some "❌ Admin only command") ∧
      whatsapp_bot shuffle data sender pn "/reset"
        = (data, some "❌ Only admins can reset") := by
  refine ⟨?_, ?_, ?_, ?_⟩
  · rw [whatsapp_bot_start]
    simp [handle_start, h]
  · rw [whatsapp_bot_end]
    simp [handle_end, h]
  · rw [whatsapp_bot_status]
    simp [handle_status, h]
  · rw [whatsapp_bot_reset]
    simp [handle_reset, h]

/-- **C9**: `/end` by an admin while the session is active but nobody joined
replies "no players have joined yet" and leaves the whole store unchanged; in
particular the session stays active. -/
theorem C9_end_empty_roster (shuffle : List Player → List Player) (data : Store)
    (sender pn : String)
    (hadmin : is_admin sender data = true)
    (hactive : data.session.active = true)
    (hempty : data.session.participants = []) :
    whatsapp_bot shuffle data sender pn "/end"
      = (data, some "❌ No players have joined yet!") := by
  rw [whatsapp_bot_end]
  simp [handle_end, hadmin, hactive, hempty]

/-- **C8**: a message whose stripped, lower-cased text matches no command gets
the generic "unknown command" notice when it starts with `/`, and no reply at
all otherwise; the store is untouched in both cases. -/
theorem C8_unknown_command (shuffle : List Player → List Player) (data : Store)
    (sender pn msg_body : String)
    (h1 : startswith (lower (strip msg_body)) "/addadmin" = false)
    (h2 : lower (strip msg_body) ≠ "/start")
    (h3 : lower (strip msg_body) ≠ "/end")
    (h4 : lower (strip msg_body) ≠ "/status")
    (h5 : lower (strip msg_body) ≠ "/reset")
    (h6 : lower (strip msg_body) ≠ "in")
    (h7 : lower (strip msg_body) ≠ "out")
    (h8 : lower (strip msg_body) ≠ "/help") :
    whatsapp_bot shuffle data sender pn msg_body
      = (data,
          if startswith (lower (strip msg_body)) "/" then
            some "❓ Unknown command. Send /help for commands"
          else none) := by
  simp [whatsapp_bot, h1, h2, h3, h4, h5, h6, h7, h8]
  split <;> rfl

/-- **C10**: a roster identity with no record in the players map is rendered
with the fallback name `Unknown`: `player_info` substitutes the default
record, `/status` renders the roster entry as `Unknown`, and `/end` still
produces a reply (and ends the session) rather than failing on the lookup. -/
theorem C10_unknown_participant (shuffle : List Player → List Player)
    (data : Store) (sender pn phone : String)
    (hmiss : data.players.lookup phone = none)
    (hparts : data.session.participants = [phone])
    (hadmin : is_admin sender data = true)
    (hactive : data.session.active = true) :
    player_info data.players phone = { name := "Unknown" } ∧
      (whatsapp_bot shuffle data sender pn "/status").2
        = some ("📊 *SESSION STATUS*\n\nStatus: 🟢 ACTIVE\nPlayers In: 1\n\n"
          ++ "Participants:\n  • Unknown\n") ∧
      ((whatsapp_bot shuffle data sender pn "/end").2).isSome = true ∧
      (whatsapp_bot shuffle data sender pn "/end").1.session.active = false := by
  have hpi : player_info data.players phone = { name := "Unknown" } := by
    simp [player_info, hmiss]
  refine ⟨hpi, ?_, ?_, ?_⟩
  · rw [whatsapp_bot_status]
    simp [handle_status, hadmin, hactive, hparts, hpi]
    decide
  · rw [whatsapp_bot_end]
    simp [handle_end, hadmin, hactive, hparts]
  · rw [whatsapp_bot_end]
    simp [handle_end, hadmin, hactive, hparts]

-- Concrete stores used to instantiate the theorems.

/-- One admin, empty players map, active session with an empty roster. -/
def joinStore : Store :=
  { admins := ["+1"], players := [],
    session := { active := true, participants := [] } }

/-- One admin, one registered player who has joined the active session. -/
def endStore : Store :=
  { admins := ["+1"], players := [("+2", { name := "Cara" })],
    session := { active := true, participants := ["+2"] } }

/-- One admin, and a roster entry with no record in the players map. -/
def ghostStore : Store :=
  { admins := ["+1"], players := [],
    session := { active := true, participants := ["+9"] } }

/-- Witness for C2 at a concrete input: the double join of `+2`. -/
theorem C2_join_twice_witness :
    joinStore.session.active = true ∧
      "+2" ∉ joinStore.session.participants ∧
      (whatsapp_bot id joinStore "+2" "Cara" "in").1.session.participants
        = joinStore.session.participants ++ ["+2"] ∧
      (whatsapp_bot id (whatsapp_bot id joinStore "+2" "Cara" "in").1 "+2" "Caz"
          "in").1.session.participants.count "+2" = 1 :=
  ⟨rfl, by decide,
    (C2_join_twice id joinStore "+2" "Cara" "Caz" rfl (by decide)).1,
    (C2_join_twice id joinStore "+2" "Cara" "Caz" rfl (by decide)).2.2.2.1⟩

/-- Witness for C3 at a concrete input: bootstrap from the empty store. -/
theorem C3_register_first_admin_witness :
    init_data.admins = [] ∧
      whatsapp_bot id init_data "+1" "A" "/addadmin"
        = ({ init_data with admins := ["+1"] }, some "👑 You are now an admin!") :=
  ⟨rfl, (C3_register_first_admin id init_data "+1" "A").1 rfl⟩

/-- Witness for C4 at a concrete input: `in`/`out` on the pristine store. -/
theorem C4_inactive_gating_witness :
    init_data.session.active = false ∧
      whatsapp_bot id init_data "+1" "A" "in"
        = (init_data, some "❌ No active selection. Wait for admin to /start") ∧
      whatsapp_bot id init_data "+1" "A" "out"
        = (init_data, some "❌ No active selection") :=
  ⟨rfl, (C4_inactive_gating id init_data "+1" "A" rfl).1,
    (C4_inactive_gating id init_data "+1" "A" rfl).2⟩

/-- Witness for C5 at a concrete input: `/end` with one joined player. -/
theorem C5_end_frame_witness :
    is_admin "+1" endStore = true ∧
      endStore.session.active = true ∧
      endStore.session.participants ≠ [] ∧
      (whatsapp_bot id endStore "+1" "A" "/end").1.session.active = false ∧
      (whatsapp_bot id endStore "+1" "A" "/end").1.session.participants
        = endStore.session.participants :=
  ⟨by decide, rfl, by decide,
    (C5_end_frame id endStore "+1" "A" (by decide) rfl (by decide)).1,
    (C5_end_frame id endStore "+1" "A" (by decide) rfl (by decide)).2.1⟩

/-- Witness for C6 at a concrete input: a known player re-joins under a new
profile name and keeps the stored one. -/
theorem C6_name_frozen_witness :
    endStore.players.lookup "+2" = some { name := "Cara" } ∧
      (whatsapp_bot id endStore "+2" "Renamed" "in").1.players = endStore.players :=
  ⟨by decide,
    (C6_name_frozen id endStore "+2" "Renamed" { name := "Cara" } (by decide)).1⟩

/-- Witness for C7 at a concrete input: a stranger tries the admin commands. -/
theorem C7_non_admin_denied_witness :
    is_admin "+9" init_data = false ∧
      whatsapp_bot id init_data "+9" "Z" "/start"
        = (init_data, some "❌ Only admins can start selection") ∧
      whatsapp_bot id init_data "+9" "Z" "/reset"
        = (init_data, some "❌ Only admins can reset") :=
  ⟨rfl, (C7_non_admin_denied id init_data "+9" "Z" rfl).1,
    (C7_non_admin_denied id init_data "+9" "Z" rfl).2.2.2⟩

/-- Witness for C8 at a concrete input: the non-command "hello" is silent. -/
theorem C8_unknown_command_witness :
    startswith (lower (strip "hello")) "/addadmin" = false ∧
      lower (strip "hello") ≠ "/start" ∧
      whatsapp_bot id init_data "+9" "Z" "hello"
        = (init_data,
            if startswith (lower (strip "hello")) "/" then
              some "❓ Unknown command. Send /help for commands"
            else none) :=
  ⟨by decide, by decide,
    C8_unknown_command id init_data "+9" "Z" "hello" (by decide) (by decide)
      (by decide) (by decide) (by decide) (by decide) (by decide) (by decide)⟩

/-- Witness for C9 at a concrete input: `/end` with an empty roster. -/
theorem C9_end_empty_roster_witness :
    is_admin "+1" joinStore = true ∧
      joinStore.session.active = true ∧
      joinStore.session.participants = [] ∧
      whatsapp_bot id joinStore "+1" "A" "/end"
        = (joinStore, some "❌ No players have joined yet!") :=
  ⟨by decide, rfl, rfl, C9_end_empty_roster id joinStore "+1" "A" (by decide) rfl rfl⟩

/-- Witness for C10 at a concrete input: an unregistered roster entry is shown
as `Unknown` by `/status`. -/
theorem C10_unknown_participant_witness :
    ghostStore.players.lookup "+9" = none ∧
      ghostStore.session.participants = ["+9"] ∧
      player_info ghostStore.players "+9" = { name := "Unknown" } ∧
      (whatsapp_bot id ghostStore "+1" "A" "/status").2
        = some ("📊 *SESSION STATUS*\n\nStatus: 🟢 ACTIVE\nPlayers In: 1\n\n"
          ++ "Participants:\n  • Unknown\n") :=
  ⟨rfl, rfl,
    (C10_unknown_participant id ghostStore "+1" "A" "+9" rfl rfl (by decide) rfl).1,
    (C10_unknown_participant id ghostStore "+1" "A" "+9" rfl rfl (by decide) rfl).2.1⟩
